import Mathlib

/-!
Shallow embedding of `src/action/common/configure_enterprise_edition_init_service.rs`
from the nix-installer repository: the `ConfigureEnterpriseEditionInitService` action
(plan / execute / revert / descriptions), its compile-time path constants, the generated
launchd property list, and the open-options semantics of the descriptor write.

External effects (file open/serialize/write outcomes, the child action's `try_execute`
outcome, the `launchctl` subprocess outcome) are modelled by an environment record of
outcomes; `execute` and `revert` return the ordered trace of external steps they attempt
together with their `Result`.
-/

/-- Source constant `DARWIN_ENTERPRISE_EDITION_DAEMON_DEST` (line 14). -/
def DARWIN_ENTERPRISE_EDITION_DAEMON_DEST : String :=
  "/Library/LaunchDaemons/systems.determinate.nix-daemon.plist"

/-- Source constant `DARWIN_LAUNCHD_DOMAIN` (line 16). -/
def DARWIN_LAUNCHD_DOMAIN : String := "system"

/-- Source constant `SERVICE_DEST` (line 17). -/
def SERVICE_DEST : String := "/etc/systemd/system/nix-daemon.service"

/-- Source constant `DETERMINATE_NIX_EE_SERVICE_SRC` (line 18). -/
def DETERMINATE_NIX_EE_SERVICE_SRC : String := "/nix/determinate/nix-daemon.service"

/-- Source constant `DARWIN_NIX_DAEMON_SOURCE` (line 19). -/
def DARWIN_NIX_DAEMON_SOURCE : String :=
  "/nix/var/nix/profiles/default/Library/LaunchDaemons/org.nixos.nix-daemon.plist"

/-- Source constant `DARWIN_ENTERPRISE_EDITION_SERVICE_NAME` (line 21). -/
def DARWIN_ENTERPRISE_EDITION_SERVICE_NAME : String := "systems.determinate.nix-daemon"

/-- The `InitSystem` selection enumeration from `crate::settings`. -/
inductive InitSystem where
  | Launchd
  | Systemd
  | None
deriving DecidableEq

/-- Source struct `ResourceLimits` (lines 188-192). -/
structure ResourceLimits where
  number_of_files : Nat
deriving DecidableEq

/-- Source struct `DeterminateNixDaemonPlist` (lines 176-186). -/
structure DeterminateNixDaemonPlist where
  label : String
  program : String
  keep_alive : Bool
  run_at_load : Bool
  standard_error_path : String
  standard_out_path : String
  soft_resource_limits : ResourceLimits
deriving DecidableEq

/-- Source function `generate_plist` (lines 194-206). -/
def generate_plist : DeterminateNixDaemonPlist :=
  { keep_alive := true
    run_at_load := true
    label := "systems.determinate.nix-daemon"
    program := "/usr/local/bin/determinate-nix-ee"
    standard_error_path := "/var/log/determinate-nix-daemon.log"
    standard_out_path := "/var/log/determinate-nix-daemon.log"
    soft_resource_limits := { number_of_files := 1048576 } }

/-- Interface model of the external generic init-service collaborator
(`ConfigureInitService`, out of scope per the spec): its `plan` records exactly the
values it was given. -/
structure ConfigureInitService where
  init : InitSystem
  start_daemon : Bool
  service_src : Option String
  service_dest : Option String
  service_name : Option String
deriving DecidableEq

/-- The collaborator's `plan`, recording its arguments (spec section 6 interface
`plan(init_system, start_flag, optional_source_path, optional_destination_path,
optional_service_name)`). -/
def ConfigureInitService.plan (init : InitSystem) (start_daemon : Bool)
    (service_src : Option String) (service_dest : Option String)
    (service_name : Option String) : ConfigureInitService :=
  { init := init
    start_daemon := start_daemon
    service_src := service_src
    service_dest := service_dest
    service_name := service_name }

/-- Source struct `ConfigureEnterpriseEditionInitService` (lines 26-31). -/
structure ConfigureEnterpriseEditionInitService where
  start_daemon : Bool
  configure_init_service : ConfigureInitService
deriving DecidableEq

/-- Source `ConfigureEnterpriseEditionInitService::plan` (lines 35-73): resolves the
source path, destination path and service name from the selection, then plans the child
`ConfigureInitService` with `InitSystem::Launchd` (line 59) and the resolved values. -/
def ConfigureEnterpriseEditionInitService.plan (init : InitSystem) (start_daemon : Bool) :
    ConfigureEnterpriseEditionInitService :=
  let service_src : Option String :=
    match init with
    | InitSystem.Launchd => Option.none
    | InitSystem.Systemd => Option.some DETERMINATE_NIX_EE_SERVICE_SRC
    | InitSystem.None => Option.none
  let service_dest : Option String :=
    match init with
    | InitSystem.Launchd => Option.some DARWIN_ENTERPRISE_EDITION_DAEMON_DEST
    | InitSystem.Systemd => Option.some SERVICE_DEST
    | InitSystem.None => Option.none
  let service_name : Option String :=
    match init with
    | InitSystem.Launchd => Option.some DARWIN_ENTERPRISE_EDITION_SERVICE_NAME
    | _ => Option.none
  let configure_init_service :=
    ConfigureInitService.plan InitSystem.Launchd start_daemon service_src service_dest
      service_name
  { start_daemon := start_daemon
    configure_init_service := configure_init_service }

/-- The flags of `tokio::fs::OpenOptions` relevant here, all false by default as in
tokio/std. -/
structure OpenOptions where
  read : Bool := false
  write : Bool := false
  create : Bool := false
  truncate : Bool := false
  append : Bool := false
deriving DecidableEq

/-- The options `execute` builds at lines 119-120: `create(true).write(true).read(true)`,
note that `truncate` is never set. -/
def executeOpenOptions : OpenOptions :=
  { create := true, write := true, read := true }

/-- OS semantics of opening an existing or absent file with the given options: a created
file starts empty, an existing file is emptied only when `truncate` is set. -/
def openedInitialContent (opts : OpenOptions) (existing : Option (List Nat)) : List Nat :=
  match existing with
  | Option.none => []
  | Option.some content => if opts.truncate then [] else content

/-- OS semantics of `write_all` at offset 0 on a freshly opened file: the buffer
overwrites the front, bytes of the initial content beyond the buffer remain. -/
def writeAllFromStart (initial : List Nat) (buf : List Nat) : List Nat :=
  buf ++ initial.drop buf.length

/-- Destination file content after `execute`'s open-and-write pair (lines 119-131),
given the pre-existing content and the serialized bytes. -/
def fileContentAfterExecute (existing : Option (List Nat)) (buf : List Nat) : List Nat :=
  writeAllFromStart (openedInitialContent executeOpenOptions existing) buf

/-- Errors surfaced by this action: file open/write failures carrying the path,
plist serialization failure, subprocess failure carrying the command line, and a
wrapped child error constructor (available to error helpers that re-wrap). -/
inductive ActionError where
  | Open (path : String)
  | Write (path : String)
  | PlistSerializeFailed
  | Command (program : String) (args : List String)
  | Child (tag : String) (inner : ActionError)
deriving DecidableEq

/-- Modelled from the spec: the `Action::error` helper used by `map_err(Self::error)`
lives in `crate::action`, which is not among the sources here. Spec section 7 (c) states
delegation errors are "propagated unchanged rather than re-wrapped", so on an
`ActionError` it is the identity. -/
def selfError (e : ActionError) : ActionError := e

/-- One external step attempted by `execute`, in order. -/
inductive ExecEvent where
  | openDest (path : String) (opts : OpenOptions)
  | writeDest (path : String) (content : DeterminateNixDaemonPlist)
  | childTryExecute
deriving DecidableEq

/-- Outcomes of the external effects `execute` performs: whether the open, the plist
serialization and the write succeed, and the result of the child's `try_execute`. -/
structure ExecEnv where
  openOk : Bool
  serializeOk : Bool
  writeOk : Bool
  childResult : Except ActionError Unit

/-- Source `ConfigureEnterpriseEditionInitService::execute` (lines 106-140): generate
the plist, open `DARWIN_ENTERPRISE_EDITION_DAEMON_DEST` with the options of lines
119-120, serialize, write, each failure returned via `Self::error` with the path; only
then `configure_init_service.try_execute()`, whose error is mapped by `Self::error`.
Returns the trace of attempted external steps together with the result. -/
def ConfigureEnterpriseEditionInitService.execute
    (a : ConfigureEnterpriseEditionInitService) (env : ExecEnv) :
    List ExecEvent × Except ActionError Unit :=
  let daemon_file := DARWIN_ENTERPRISE_EDITION_DAEMON_DEST
  let generated_plist := generate_plist
  let evOpen := [ExecEvent.openDest daemon_file executeOpenOptions]
  if env.openOk then
    if env.serializeOk then
      let evWrite := evOpen ++ [ExecEvent.writeDest daemon_file generated_plist]
      if env.writeOk then
        let evChild := evWrite ++ [ExecEvent.childTryExecute]
        match env.childResult with
        | Except.ok _ => (evChild, Except.ok ())
        | Except.error e => (evChild, Except.error (selfError e))
      else
        (evWrite, Except.error (selfError (ActionError.Write daemon_file)))
    else
      (evOpen, Except.error (selfError ActionError.PlistSerializeFailed))
  else
    (evOpen, Except.error (selfError (ActionError.Open daemon_file)))

/-- The destination paths of the descriptor writes in a trace. -/
def writePaths (evs : List ExecEvent) : List String :=
  evs.filterMap fun e =>
    match e with
    | ExecEvent.writeDest p _ => Option.some p
    | _ => Option.none

/-- Whether an event is the child's `try_execute` invocation. -/
def ExecEvent.isChildTryExecute : ExecEvent → Bool
  | ExecEvent.childTryExecute => true
  | _ => false

/-- Whether a result is an error. -/
def resultIsError : Except ActionError Unit → Bool
  | Except.error _ => true
  | Except.ok _ => false

/-- A command line handed to the subprocess helper. -/
structure Cmd where
  program : String
  args : List String
deriving DecidableEq

/-- The single command `revert` runs (lines 153-164): `launchctl bootout` with the
joined `DARWIN_LAUNCHD_DOMAIN` / `DARWIN_ENTERPRISE_EDITION_SERVICE_NAME` pair. -/
def revertCommand : Cmd :=
  { program := "launchctl"
    args := ["bootout",
      String.intercalate ("/")
        [DARWIN_LAUNCHD_DOMAIN, DARWIN_ENTERPRISE_EDITION_SERVICE_NAME]] }

/-- One external step attempted by `revert`. -/
inductive RevertEvent where
  | runCommand (c : Cmd)
  | deleteFile (path : String)
  | childTryRevert
deriving DecidableEq

/-- Whether a revert event deletes a file. -/
def RevertEvent.isDeleteFile : RevertEvent → Bool
  | RevertEvent.deleteFile _ => true
  | _ => false

/-- Whether a revert event is the child's `try_revert` invocation. -/
def RevertEvent.isChildTryRevert : RevertEvent → Bool
  | RevertEvent.childTryRevert => true
  | _ => false

/-- Outcome of the external `launchctl` invocation: true when it spawns and exits 0. -/
structure RevertEnv where
  runOk : Bool

/-- Source `ConfigureEnterpriseEditionInitService::revert` (lines 152-169): run the
`launchctl bootout system/systems.determinate.nix-daemon` command via the subprocess
helper, mapping its failure through `Self::error`; nothing else is done. -/
def ConfigureEnterpriseEditionInitService.revert
    (a : ConfigureEnterpriseEditionInitService) (env : RevertEnv) :
    List RevertEvent × Except ActionError Unit :=
  let evs := [RevertEvent.runCommand revertCommand]
  if env.runOk then
    (evs, Except.ok ())
  else
    (evs, Except.error (selfError (ActionError.Command revertCommand.program
      revertCommand.args)))

/-- Source struct `ActionDescription` from `crate::action`, as used here: a synopsis
plus ordered step explanations. -/
structure ActionDescription where
  description : String
  explanation : List String
deriving DecidableEq

/-- The `ActionDescription::new` constructor. -/
def ActionDescription.new (description : String) (explanation : List String) :
    ActionDescription :=
  { description := description, explanation := explanation }

/-- Source `tracing_synopsis` (lines 82-85). -/
def ConfigureEnterpriseEditionInitService.tracing_synopsis
    (a : ConfigureEnterpriseEditionInitService) : String :=
  "Configure the Determinate Nix Enterprise Edition daemon related settings with launchctl"

/-- Source `execute_description` (lines 94-103): always the `Create` line, plus the
`launchctl bootstrap` line when `start_daemon` is set. -/
def ConfigureEnterpriseEditionInitService.execute_description
    (a : ConfigureEnterpriseEditionInitService) : List ActionDescription :=
  let explanation := ["Create `" ++ DARWIN_ENTERPRISE_EDITION_DAEMON_DEST ++ "`"]
  let explanation :=
    if a.start_daemon then
      explanation ++
        ["Run `launchctl bootstrap " ++ DARWIN_ENTERPRISE_EDITION_DAEMON_DEST ++ "`"]
    else explanation
  [ActionDescription.new a.tracing_synopsis explanation]

/-- Source `revert_description` (lines 142-149): previews `launchctl bootout` applied
to the destination plist path. -/
def ConfigureEnterpriseEditionInitService.revert_description
    (a : ConfigureEnterpriseEditionInitService) : List ActionDescription :=
  [ActionDescription.new
    ("Unconfigure Nix daemon related settings with launchctl")
    (["Run `launchctl bootout " ++ DARWIN_ENTERPRISE_EDITION_DAEMON_DEST ++ "`"])]

/-- An environment in which every external effect succeeds. -/
def allOkEnv : ExecEnv :=
  { openOk := true, serializeOk := true, writeOk := true, childResult := Except.ok () }

/-- An environment in which opening the destination file fails. -/
def failOpenEnv : ExecEnv :=
  { openOk := false, serializeOk := true, writeOk := true, childResult := Except.ok () }

/-- The action as planned for Launchd with the start flag set. -/
def launchdPlanTrue : ConfigureEnterpriseEditionInitService :=
  ConfigureEnterpriseEditionInitService.plan InitSystem.Launchd true

/-- C1 counterexample: planned for the Systemd selection, plan resolves the systemd unit
path `/etc/systemd/system/nix-daemon.service` as the destination, yet execute writes the
descriptor to the fixed Darwin launchd plist path, a different path. -/
theorem c1_systemd_write_goes_to_darwin_path :
    (ConfigureEnterpriseEditionInitService.plan InitSystem.Systemd
        true).configure_init_service.service_dest = Option.some SERVICE_DEST ∧
    writePaths (ConfigureEnterpriseEditionInitService.execute
        (ConfigureEnterpriseEditionInitService.plan InitSystem.Systemd true) allOkEnv).1
      = [DARWIN_ENTERPRISE_EDITION_DAEMON_DEST] ∧
    (decide (DARWIN_ENTERPRISE_EDITION_DAEMON_DEST = SERVICE_DEST)) = false := by
  refine ⟨rfl, rfl, by decide⟩

/-- C1 amended: for every init-system selection the action was planned with, and every
environment, each descriptor write execute attempts targets the fixed Darwin launchd
plist path; that path is the plan-resolved destination for the Launchd selection. -/
theorem c1_execute_always_writes_darwin_dest (init : InitSystem) (start : Bool)
    (env : ExecEnv) :
    writePaths (ConfigureEnterpriseEditionInitService.execute
        (ConfigureEnterpriseEditionInitService.plan init start) env).1
      = (if env.openOk && env.serializeOk then [DARWIN_ENTERPRISE_EDITION_DAEMON_DEST]
         else []) ∧
    (ConfigureEnterpriseEditionInitService.plan InitSystem.Launchd
        start).configure_init_service.service_dest
      = Option.some DARWIN_ENTERPRISE_EDITION_DAEMON_DEST := by
  obtain ⟨o, s, w, c⟩ := env
  cases o <;> cases s <;> cases w <;> cases c <;> exact ⟨rfl, rfl⟩

/-- C2 counterexample: planned for the Systemd selection, the child action is planned
with `InitSystem.Launchd`, not the selection the composite was given. -/
theorem c2_child_planned_with_launchd_for_systemd :
    (ConfigureEnterpriseEditionInitService.plan InitSystem.Systemd
        true).configure_init_service.init = InitSystem.Launchd ∧
    (decide (InitSystem.Launchd = InitSystem.Systemd)) = false := by
  exact ⟨rfl, by decide⟩

/-- C2 amended: plan always passes `InitSystem.Launchd` to the generic child action's
plan — regardless of the selection it was given — together with the start flag and the
source path, destination path and service name resolved from the given selection. -/
theorem c2_child_plan_arguments (init : InitSystem) (start : Bool) :
    (ConfigureEnterpriseEditionInitService.plan init start).configure_init_service
      = ConfigureInitService.plan InitSystem.Launchd start
          (match init with
           | InitSystem.Systemd => Option.some DETERMINATE_NIX_EE_SERVICE_SRC
           | _ => Option.none)
          (match init with
           | InitSystem.Launchd => Option.some DARWIN_ENTERPRISE_EDITION_DAEMON_DEST
           | InitSystem.Systemd => Option.some SERVICE_DEST
           | InitSystem.None => Option.none)
          (match init with
           | InitSystem.Launchd => Option.some DARWIN_ENTERPRISE_EDITION_SERVICE_NAME
           | _ => Option.none) := by
  cases init <;> rfl

/-- C3: if opening, serializing or writing the descriptor fails, the child's
`try_execute` is never invoked and execute returns an error. -/
theorem c3_failed_write_blocks_child (a : ConfigureEnterpriseEditionInitService)
    (env : ExecEnv) (h : (env.openOk && env.serializeOk && env.writeOk) = false) :
    ((ConfigureEnterpriseEditionInitService.execute a env).1.filter
        ExecEvent.isChildTryExecute) = [] ∧
    resultIsError (ConfigureEnterpriseEditionInitService.execute a env).2 = true := by
  obtain ⟨o, s, w, c⟩ := env
  cases o <;> cases s <;> cases w <;>
    first
      | exact ⟨rfl, rfl⟩
      | exact Bool.noConfusion h

/-- C3 witness at a concrete action and an environment whose open fails. -/
theorem c3_failed_write_blocks_child_witness :
    ((ConfigureEnterpriseEditionInitService.execute launchdPlanTrue failOpenEnv).1.filter
        ExecEvent.isChildTryExecute) = [] ∧
    resultIsError
      (ConfigureEnterpriseEditionInitService.execute launchdPlanTrue failOpenEnv).2
      = true :=
  c3_failed_write_blocks_child launchdPlanTrue failOpenEnv (by decide)

/-- C4: the open options of execute set create, write and read but never truncate, so a
pre-existing destination file longer than the serialized bytes keeps its stale trailing
bytes past the newly written prefix. -/
theorem c4_open_options_do_not_truncate :
    executeOpenOptions.create = true ∧
    executeOpenOptions.write = true ∧
    executeOpenOptions.read = true ∧
    executeOpenOptions.truncate = false ∧
    fileContentAfterExecute (Option.some [7, 7, 7, 7]) [1, 2] = [1, 2, 7, 7] := by
  exact ⟨rfl, rfl, rfl, rfl, rfl⟩

/-- C5: planned for Launchd with the start flag set, under an environment where the
file steps succeed, execute's trace is the open of the Darwin destination, the write of
the generated descriptor there, and only then the child's `try_execute`; the generated
descriptor has label `systems.determinate.nix-daemon`, program
`/usr/local/bin/determinate-nix-ee`, keep-alive true and open-file soft limit 1048576. -/
theorem c5_launchd_descriptor_then_child (env : ExecEnv) (h1 : env.openOk = true)
    (h2 : env.serializeOk = true) (h3 : env.writeOk = true) :
    (ConfigureEnterpriseEditionInitService.execute
        (ConfigureEnterpriseEditionInitService.plan InitSystem.Launchd true) env).1
      = [ExecEvent.openDest DARWIN_ENTERPRISE_EDITION_DAEMON_DEST executeOpenOptions,
         ExecEvent.writeDest DARWIN_ENTERPRISE_EDITION_DAEMON_DEST generate_plist,
         ExecEvent.childTryExecute] ∧
    generate_plist.label = "systems.determinate.nix-daemon" ∧
    generate_plist.program = "/usr/local/bin/determinate-nix-ee" ∧
    generate_plist.keep_alive = true ∧
    generate_plist.soft_resource_limits.number_of_files = 1048576 := by
  obtain ⟨o, s, w, c⟩ := env
  cases o
  · exact Bool.noConfusion h1
  · cases s
    · exact Bool.noConfusion h2
    · cases w
      · exact Bool.noConfusion h3
      · cases c <;> exact ⟨rfl, rfl, rfl, rfl, rfl⟩

/-- C5 witness at the all-successful environment. -/
theorem c5_launchd_descriptor_then_child_witness :
    (ConfigureEnterpriseEditionInitService.execute
        (ConfigureEnterpriseEditionInitService.plan InitSystem.Launchd true) allOkEnv).1
      = [ExecEvent.openDest DARWIN_ENTERPRISE_EDITION_DAEMON_DEST executeOpenOptions,
         ExecEvent.writeDest DARWIN_ENTERPRISE_EDITION_DAEMON_DEST generate_plist,
         ExecEvent.childTryExecute] ∧
    generate_plist.label = "systems.determinate.nix-daemon" ∧
    generate_plist.program = "/usr/local/bin/determinate-nix-ee" ∧
    generate_plist.keep_alive = true ∧
    generate_plist.soft_resource_limits.number_of_files = 1048576 :=
  c5_launchd_descriptor_then_child allOkEnv rfl rfl rfl

/-- C6: revert's trace is exactly one `launchctl bootout` command addressed by the
domain/name pair `system/systems.determinate.nix-daemon`, no file is deleted, the result
is success exactly when the command succeeds and otherwise the subprocess error carrying
the command is surfaced. -/
theorem c6_revert_single_bootout (a : ConfigureEnterpriseEditionInitService)
    (env : RevertEnv) :
    (ConfigureEnterpriseEditionInitService.revert a env).1
      = [RevertEvent.runCommand revertCommand] ∧
    revertCommand.program = "launchctl" ∧
    revertCommand.args = ["bootout", "system/systems.determinate.nix-daemon"] ∧
    ((ConfigureEnterpriseEditionInitService.revert a env).1.filter
        RevertEvent.isDeleteFile) = [] ∧
    (ConfigureEnterpriseEditionInitService.revert a env).2
      = (if env.runOk then Except.ok ()
         else Except.error
           (ActionError.Command revertCommand.program revertCommand.args)) := by
  obtain ⟨r⟩ := env
  cases r <;> exact ⟨rfl, rfl, by decide, rfl, rfl⟩

/-- C7 counterexample: at a concrete planned action, revert's trace contains no
invocation of the owned child's `try_revert`; it is only the composite's own
unregistration command, so revert does not start with the child's `try_revert`. -/
theorem c7_revert_never_calls_child :
    (ConfigureEnterpriseEditionInitService.revert launchdPlanTrue
        { runOk := true }).1 = [RevertEvent.runCommand revertCommand] ∧
    ((ConfigureEnterpriseEditionInitService.revert launchdPlanTrue
        { runOk := true }).1.filter RevertEvent.isChildTryRevert) = [] := by
  exact ⟨rfl, rfl⟩

/-- C7 amended: revert never invokes the owned child action's `try_revert`; for every
instance and environment its trace consists solely of its own unregistration command. -/
theorem c7_revert_only_own_step (a : ConfigureEnterpriseEditionInitService)
    (env : RevertEnv) :
    ((ConfigureEnterpriseEditionInitService.revert a env).1.filter
        RevertEvent.isChildTryRevert) = [] ∧
    (ConfigureEnterpriseEditionInitService.revert a env).1
      = [RevertEvent.runCommand revertCommand] := by
  obtain ⟨r⟩ := env
  cases r <;> exact ⟨rfl, rfl⟩

/-- C8: execute_description is a pure function of the instance; it always lists the
creation of the destination descriptor, and it lists the `launchctl bootstrap` step if
and only if the start flag is set. -/
theorem c8_execute_description_steps (a : ConfigureEnterpriseEditionInitService) :
    ConfigureEnterpriseEditionInitService.execute_description a
      = [ActionDescription.new a.tracing_synopsis
          (["Create `" ++ DARWIN_ENTERPRISE_EDITION_DAEMON_DEST ++ "`"] ++
            (if a.start_daemon then
              ["Run `launchctl bootstrap " ++ DARWIN_ENTERPRISE_EDITION_DAEMON_DEST
                ++ "`"]
             else []))] := by
  obtain ⟨sd, cis⟩ := a
  cases sd <;> rfl

/-- C9: an error from the owned child's `try_execute` is surfaced by execute as exactly
the same error value, with no additional wrapping layer. -/
theorem c9_child_error_propagated (a : ConfigureEnterpriseEditionInitService)
    (env : ExecEnv) (e : ActionError) (h1 : env.openOk = true)
    (h2 : env.serializeOk = true) (h3 : env.writeOk = true)
    (h4 : env.childResult = Except.error e) :
    (ConfigureEnterpriseEditionInitService.execute a env).2 = Except.error e := by
  obtain ⟨o, s, w, c⟩ := env
  cases o
  · exact Bool.noConfusion h1
  · cases s
    · exact Bool.noConfusion h2
    · cases w
      · exact Bool.noConfusion h3
      · cases c with
        | ok u => exact Except.noConfusion h4
        | error e2 =>
          injection h4 with he
          subst he
          rfl

/-- C9 witness at a concrete action, environment and child error. -/
theorem c9_child_error_propagated_witness :
    (ConfigureEnterpriseEditionInitService.execute launchdPlanTrue
        { openOk := true, serializeOk := true, writeOk := true,
          childResult := Except.error (ActionError.Open ("/tmp/x")) }).2
      = Except.error (ActionError.Open ("/tmp/x")) :=
  c9_child_error_propagated launchdPlanTrue
    { openOk := true, serializeOk := true, writeOk := true,
      childResult := Except.error (ActionError.Open ("/tmp/x")) }
    (ActionError.Open ("/tmp/x")) rfl rfl rfl rfl

/-- C10: for every instance, revert_description previews `launchctl bootout` applied to
the descriptor file path, while the command revert actually runs passes the
domain/name pair `system/systems.determinate.nix-daemon` — a different argument. -/
theorem c10_revert_description_mismatch (a : ConfigureEnterpriseEditionInitService) :
    (ConfigureEnterpriseEditionInitService.revert_description a).map
        ActionDescription.explanation
      = [["Run `launchctl bootout /Library/LaunchDaemons/systems.determinate.nix-daemon.plist`"]] ∧
    revertCommand.args = ["bootout", "system/systems.determinate.nix-daemon"] ∧
    (decide (DARWIN_ENTERPRISE_EDITION_DAEMON_DEST
        = String.intercalate ("/")
            [DARWIN_LAUNCHD_DOMAIN, DARWIN_ENTERPRISE_EDITION_SERVICE_NAME])) = false := by
  exact ⟨rfl, by decide, by decide⟩
